import Mathlib

/-!
Shallow embedding of the core pipeline of `src/btc_tracker.py`:
the quote fetcher (`get_btc_price`), the rolling history buffer kept in
`st.session_state.price_data` (`update_data`, lines 103/109-111), the
forwarder (`send_to_aws_api`) and the metric derivation in
`display_metrics`.

Modelling conventions:
* Python floats that hold prices/sizes/volumes are modelled as `ℚ`.
* `datetime.now()` readings are modelled as `Nat` values supplied as
  explicit parameters: `get_btc_price` receives the clock value read at
  line 75, `update_data` additionally receives the clock value read at
  line 104.
* The outcome of each outbound HTTP call is an explicit parameter
  (`HttpResult` for the two GETs, `PostOutcome` for the POST), since the
  network is outside the program.
* A Python exception propagating is modelled as `Except.error`; a
  `try/except` that recovers is the corresponding `match`/`toOption`.
* Response-body field extraction plus `float(...)` parsing is collapsed
  into `Option ℚ`: `none` when the key/index is missing or the string is
  not numeric (both raise, and both are caught by the same handler),
  `some q` when parsing yields `q`.
-/

/-- One market snapshot, the `price_point` dict built at lines 81-90. -/
structure Observation where
  timestamp : Nat
  trade_price : ℚ
  trade_size : ℚ
  bid_price : ℚ
  bid_size : ℚ
  ask_price : ℚ
  ask_size : ℚ
  volume : ℚ
deriving DecidableEq, Repr

/-- The session state initialised at lines 17-24: the rolling history,
the last-update marker, and the forwarding configuration. -/
structure SessionState where
  price_data : List Observation
  last_update : Option Nat
  aws_api_url : String
  aws_api_enabled : Bool
deriving DecidableEq, Repr

/-- Outcome of one `requests.get` call: a 2xx response with a parsed
body, a non-2xx response (so `raise_for_status` raises `HTTPError`), or
a network-level failure (timeout, connection error: `RequestException`). -/
inductive HttpResult (α : Type) where
  | ok2xx (body : α)
  | non2xx
  | netError
deriving DecidableEq, Repr

/-- Body of the ticker response: the `price`, `size` and `volume` fields
after `float(...)`; `none` when the key is absent or the string does not
parse (lines 83, 84, 89). -/
structure TickerBody where
  price : Option ℚ
  size : Option ℚ
  volume : Option ℚ
deriving DecidableEq, Repr

/-- Body of the level-1 order-book response: the `bids` and `asks`
arrays, each entry a (price, size) pair after `float(...)` of its first
two elements (lines 78-79, 85-88). -/
structure BookBody where
  bids : List (Option ℚ × Option ℚ)
  asks : List (Option ℚ × Option ℚ)
deriving DecidableEq, Repr

/-- `requests.get` + `raise_for_status` + `.json()` (lines 65-67 and
71-73): yields the body on 2xx, raises otherwise. -/
def http_get {α : Type} (r : HttpResult α) : Except String α :=
  match r with
  | HttpResult.ok2xx body => Except.ok body
  | HttpResult.non2xx => Except.error "HTTPError"
  | HttpResult.netError => Except.error "RequestException"

/-- `float(x)` applied to an extracted field: raises when the
key/index lookup or the parse failed. -/
def float_of (o : Option ℚ) : Except String ℚ :=
  match o with
  | some q => Except.ok q
  | none => Except.error "ValueError"

/-- The `try`-block of `get_btc_price` (lines 62-92): both GETs, the
empty-side defaults at lines 78-79 (`['0','0']`, which `float` to 0),
and assembly of the `price_point` dict. An `Except.error` is an
exception that would propagate out of the block. -/
def fetch_body (tr : HttpResult TickerBody) (br : HttpResult BookBody)
    (now : Nat) : Except String Observation := do
  let ticker_data ← http_get tr
  let book_data ← http_get br
  let current_time := now
  let best_bid := book_data.bids.headD (some 0, some 0)
  let best_ask := book_data.asks.headD (some 0, some 0)
  let tp ← float_of ticker_data.price
  let tsz ← float_of ticker_data.size
  let bp ← float_of best_bid.1
  let bsz ← float_of best_bid.2
  let ap ← float_of best_ask.1
  let asz ← float_of best_ask.2
  let vol ← float_of ticker_data.volume
  Except.ok
    { timestamp := current_time, trade_price := tp, trade_size := tsz,
      bid_price := bp, bid_size := bsz, ask_price := ap, ask_size := asz,
      volume := vol }

/-- `get_btc_price` (lines 60-96): the `try` body, with the
`except Exception` handler (lines 94-96) turning any exception into
`None`. -/
def get_btc_price (tr : HttpResult TickerBody) (br : HttpResult BookBody)
    (now : Nat) : Option Observation :=
  (fetch_body tr br now).toOption

/-- Outcome of the `requests.post` call at lines 43-48: a 2xx response,
a non-2xx response (`raise_for_status` raises), or a request-level
failure (timeout, network error). -/
inductive PostOutcome where
  | ok2xx
  | non2xx
  | requestError
deriving DecidableEq, Repr

/-- Observable behaviour of one `send_to_aws_api` call: the returned
Boolean, the JSON body of the POST that was issued (`none` when no
network call was made), and whether an `st.error` banner was shown. -/
structure ForwardTrace where
  result : Bool
  payload_sent : Option (List ℚ)
  error_shown : Bool
deriving DecidableEq, Repr

/-- `send_to_aws_api` (lines 26-58): early `False` when forwarding is
disabled or the URL is empty (line 28, where an empty string is falsy);
otherwise builds the 6-element payload (lines 33-40), issues the POST,
and catches every exception into `False` with an error banner
(lines 53-58). -/
def send_to_aws_api (s : SessionState) (price_data : Observation)
    (out : PostOutcome) : ForwardTrace :=
  if !s.aws_api_enabled || s.aws_api_url == "" then
    { result := false, payload_sent := none, error_shown := false }
  else
    let payload : List ℚ :=
      [price_data.bid_price, price_data.bid_size,
       price_data.ask_price, price_data.ask_size,
       price_data.trade_price, price_data.trade_size]
    match out with
    | PostOutcome.ok2xx =>
        { result := true, payload_sent := some payload, error_shown := false }
    | PostOutcome.non2xx =>
        { result := false, payload_sent := some payload, error_shown := true }
    | PostOutcome.requestError =>
        { result := false, payload_sent := some payload, error_shown := true }

/-- The history-buffer transformation of one successful tick: the append
at line 103 followed by the truncation to the last 100 entries at
lines 109-111. -/
def push_window (buf : List Observation) (x : Observation) : List Observation :=
  let appended := buf ++ [x]
  if appended.length > 100 then appended.drop (appended.length - 100)
  else appended

/-- What one call of `update_data` returns and does: the new session
state, the pair `(data_success, aws_success)` returned at lines 113-114,
and the trace of the forward call (`none` when `send_to_aws_api` was
never invoked). -/
structure TickOutcome where
  state : SessionState
  data_success : Bool
  aws_success : Bool
  forward : Option ForwardTrace
deriving DecidableEq, Repr

/-- `update_data` (lines 98-114). `t_update` is the `datetime.now()`
reading at line 104; `t_fetch` the one inside `get_btc_price` (line 75).
On a fetch failure it returns `(False, False)` leaving the state alone;
on success it appends, stamps `last_update`, forwards, truncates, and
returns `(True, aws_success)`. `send_to_aws_api` reads only the two
configuration fields, which the append does not change, so it is given
`s` directly. -/
def update_data (s : SessionState) (tr : HttpResult TickerBody)
    (br : HttpResult BookBody) (t_fetch t_update : Nat)
    (out : PostOutcome) : TickOutcome :=
  match get_btc_price tr br t_fetch with
  | none =>
      { state := s, data_success := false, aws_success := false,
        forward := none }
  | some new_data =>
      let trace := send_to_aws_api s new_data out
      { state :=
          { s with price_data := push_window s.price_data new_data,
                   last_update := some t_update },
        data_success := true, aws_success := trace.result,
        forward := some trace }

/-- The four derived metrics computed by `display_metrics`. -/
structure Metrics where
  price_change : ℚ
  price_change_pct : ℚ
  spread : ℚ
  spread_pct : ℚ
deriving DecidableEq, Repr

/-- Python float division: raises `ZeroDivisionError` on a zero
divisor. -/
def pyDiv (a b : ℚ) : Except String ℚ :=
  if b = 0 then Except.error "ZeroDivisionError" else Except.ok (a / b)

/-- The metric computations of `display_metrics` (lines 174-219):
early return when the history is empty (lines 176-177); price change
and percentage from the last two entries when there are at least two
(lines 185-188); spread and spread percentage from the latest entry
(lines 213-214). The divisions are exactly the source's, unguarded:
an `Except.error` is an exception propagating out of the function. -/
def display_metrics (price_data : List Observation) :
    Except String (Option Metrics) :=
  match price_data.getLast? with
  | none => Except.ok none
  | some latest => do
      let changes ←
        if 2 ≤ price_data.length then
          match price_data.dropLast.getLast? with
          | none => Except.error "IndexError"
          | some previous => do
              let price_change := latest.trade_price - previous.trade_price
              let pct ← pyDiv price_change previous.trade_price
              Except.ok (price_change, pct * 100)
        else Except.ok ((0 : ℚ), (0 : ℚ))
      let spread := latest.ask_price - latest.bid_price
      let spct ← pyDiv spread latest.trade_price
      Except.ok (some
        { price_change := changes.1, price_change_pct := changes.2,
          spread := spread, spread_pct := spct * 100 })

/-! ### Helper lemmas for the rolling-window buffer -/

/-- One successful append-then-truncate step equals appending and then
dropping everything before the last 100 entries. -/
theorem push_window_eq_drop (buf : List Observation) (x : Observation) :
    push_window buf x = (buf ++ [x]).drop (buf.length + 1 - 100) := by
  show (if (buf ++ [x]).length > 100
      then (buf ++ [x]).drop ((buf ++ [x]).length - 100)
      else (buf ++ [x])) = (buf ++ [x]).drop (buf.length + 1 - 100)
  split
  · simp [List.length_append]
  · rename_i h
    simp only [List.length_append, List.length_singleton, gt_iff_lt, not_lt] at h
    have h0 : buf.length + 1 - 100 = 0 := by omega
    rw [h0, List.drop_zero]

/-- Folding the append-then-truncate step over any sequence of
observations, starting from the empty history, keeps exactly the last
100 of them. -/
theorem foldl_push_window_drop (xs : List Observation) :
    xs.foldl push_window [] = xs.drop (xs.length - 100) := by
  induction xs using List.reverseRecOn with
  | nil => rfl
  | append_singleton ys x ih =>
      rw [List.foldl_append, List.foldl_cons, List.foldl_nil, ih,
        push_window_eq_drop,
        ← List.drop_append_of_le_length (Nat.sub_le ys.length 100),
        List.drop_drop]
      have hlen : (ys.length - 100) +
            ((ys.drop (ys.length - 100)).length + 1 - 100) =
          (ys ++ [x]).length - 100 := by
        simp only [List.length_append, List.length_drop, List.length_singleton]
        omega
      rw [hlen]

/-! ### The claims -/

/-- Claim C1 (code bug): the metric derivation of display_metrics is NOT
guarded against division by zero. On a one-entry history whose latest
observation has trade_price = 0 the spread-percentage division at
line 214 raises ZeroDivisionError, and on a two-entry history whose
previous observation has trade_price = 0 the price-change-percentage
division at line 188 raises ZeroDivisionError, contradicting the spec's
requirement that these divisions never raise and resolve to a defined
sentinel. -/
theorem metric_derivation_raises_div_by_zero :
    display_metrics [⟨0, 0, 1, 1, 1, 2, 1, 0⟩] =
      Except.error "ZeroDivisionError" ∧
    display_metrics [⟨0, 0, 1, 1, 1, 2, 1, 5⟩, ⟨1, 100, 1, 99, 1, 101, 2, 5⟩] =
      Except.error "ZeroDivisionError" :=
  ⟨rfl, rfl⟩

/-- Claim C2: for every sequence of appends into an initially empty
history, the resulting buffer has length min(N, 100) and its contents
are exactly the last min(N, 100) appended observations in their
original order. -/
theorem history_window_contents (xs : List Observation) :
    (xs.foldl push_window []).length = min xs.length 100 ∧
    xs.foldl push_window [] = xs.drop (xs.length - 100) := by
  refine ⟨?_, foldl_push_window_drop xs⟩
  rw [foldl_push_window_drop, List.length_drop]
  omega

/-- Claim C3: when the fetch stage fails, update_data returns
(False, False) with no forward attempted, and both the history contents
and the last-update timestamp are exactly what they were before. -/
theorem tick_fetch_failure_leaves_state (s : SessionState)
    (tr : HttpResult TickerBody) (br : HttpResult BookBody)
    (tf tu : Nat) (out : PostOutcome)
    (h : get_btc_price tr br tf = none) :
    update_data s tr br tf tu out =
      { state := s, data_success := false, aws_success := false,
        forward := none } := by
  simp [update_data, h]

/-- Witness for C3 at a concrete failing fetch (a network error on the
ticker call). -/
theorem tick_fetch_failure_leaves_state_witness :
    update_data ⟨[], none, "", false⟩ HttpResult.netError
        (HttpResult.ok2xx ⟨[], []⟩) 0 1 PostOutcome.ok2xx =
      ⟨⟨[], none, "", false⟩, false, false, none⟩ :=
  tick_fetch_failure_leaves_state _ _ _ _ _ _ rfl

/-- Claim C4: whenever the forwarder issues a POST, its JSON body is
exactly the 6-element array [bid_price, bid_size, ask_price, ask_size,
trade_price, trade_size] of the forwarded observation, with volume and
timestamp excluded. -/
theorem forward_payload_exact_six_fields (s : SessionState)
    (o : Observation) (out : PostOutcome) :
    (send_to_aws_api s o out).payload_sent = none ∨
    (send_to_aws_api s o out).payload_sent =
      some [o.bid_price, o.bid_size, o.ask_price, o.ask_size,
            o.trade_price, o.trade_size] := by
  unfold send_to_aws_api
  split
  · exact Or.inl rfl
  · cases out <;> exact Or.inr rfl

/-- Counterexample to claim C5 as stated: on a successful tick with
capture time 0 and append time 1, the appended observation carries
capture timestamp 0 while last_update is set to 1 — the recorded
last-update marker is not the observation's capture timestamp. -/
theorem last_update_not_capture_timestamp :
    update_data ⟨[], none, "", false⟩
        (HttpResult.ok2xx ⟨some 100, some 1, some 5⟩)
        (HttpResult.ok2xx ⟨[(some 99, some 1)], [(some 101, some 2)]⟩)
        0 1 PostOutcome.requestError =
      ⟨⟨[⟨0, 100, 1, 99, 1, 101, 2, 5⟩], some 1, "", false⟩, true, false,
        some ⟨false, none, false⟩⟩ ∧
    some 1 ≠ some (Observation.timestamp ⟨0, 100, 1, 99, 1, 101, 2, 5⟩) :=
  ⟨rfl, by decide⟩

/-- Claim C5 amended: after every successful tick, last_update equals
the fresh clock reading taken at line 104 when the data is stored,
which is a second datetime.now() call and need not equal the capture
timestamp stored in the observation at line 75. -/
theorem last_update_is_append_time (s : SessionState)
    (tr : HttpResult TickerBody) (br : HttpResult BookBody)
    (tf tu : Nat) (out : PostOutcome)
    (h : (update_data s tr br tf tu out).data_success = true) :
    (update_data s tr br tf tu out).state.last_update = some tu := by
  unfold update_data at h ⊢
  cases hf : get_btc_price tr br tf with
  | none => rw [hf] at h; exact absurd h (by simp)
  | some o => rfl

/-- Witness for the amended C5 at a concrete successful tick. -/
theorem last_update_is_append_time_witness :
    (update_data ⟨[], none, "", false⟩
        (HttpResult.ok2xx ⟨some 100, some 1, some 5⟩)
        (HttpResult.ok2xx ⟨[], []⟩) 3 7 PostOutcome.ok2xx).state.last_update =
      some 7 :=
  last_update_is_append_time _ _ _ _ _ _ rfl

/-- Claim C6: with forwarding disabled or an empty endpoint,
send_to_aws_api returns False immediately, issues no network call, and
shows no error banner, regardless of the endpoint value or the network
outcome. -/
theorem forward_disabled_skips (s : SessionState) (o : Observation)
    (out : PostOutcome)
    (h : s.aws_api_enabled = false ∨ s.aws_api_url = "") :
    send_to_aws_api s o out =
      { result := false, payload_sent := none, error_shown := false } := by
  rcases h with h | h <;> simp [send_to_aws_api, h]

/-- Witness for C6: disabled configuration with a non-empty endpoint
and an unreachable network. -/
theorem forward_disabled_skips_witness :
    send_to_aws_api ⟨[], none, "u", false⟩ ⟨0, 1, 1, 1, 1, 1, 1, 1⟩
        PostOutcome.requestError =
      { result := false, payload_sent := none, error_shown := false } :=
  forward_disabled_skips _ _ _ (Or.inl rfl)

/-- Claim C7: any failing POST outcome (network error, timeout,
non-2xx) is returned to the caller as the value False, never as an
exception; the tick still completes, reports fetchOk = true, appends
the observation, and passes the forwarder's value through. -/
theorem forward_failure_reported_as_data (s : SessionState)
    (tr : HttpResult TickerBody) (br : HttpResult BookBody)
    (tf tu : Nat) (out : PostOutcome) (o : Observation)
    (h : get_btc_price tr br tf = some o)
    (hout : out ≠ PostOutcome.ok2xx) :
    (send_to_aws_api s o out).result = false ∧
    (update_data s tr br tf tu out).data_success = true ∧
    (update_data s tr br tf tu out).state.price_data =
      push_window s.price_data o ∧
    (update_data s tr br tf tu out).aws_success =
      (send_to_aws_api s o out).result := by
  have hr : (send_to_aws_api s o out).result = false := by
    unfold send_to_aws_api
    split
    · rfl
    · cases out with
      | ok2xx => exact absurd rfl hout
      | non2xx => rfl
      | requestError => rfl
  exact ⟨hr, by simp [update_data, h], by simp [update_data, h],
    by simp [update_data, h]⟩

/-- Witness for C7 at a concrete successful fetch followed by a non-2xx
POST response. -/
theorem forward_failure_reported_as_data_witness :
    (send_to_aws_api ⟨[], none, "u", true⟩ ⟨5, 100, 1, 99, 1, 101, 2, 5⟩
        PostOutcome.non2xx).result = false ∧
    (update_data ⟨[], none, "u", true⟩
        (HttpResult.ok2xx ⟨some 100, some 1, some 5⟩)
        (HttpResult.ok2xx ⟨[(some 99, some 1)], [(some 101, some 2)]⟩)
        5 6 PostOutcome.non2xx).data_success = true ∧
    (update_data ⟨[], none, "u", true⟩
        (HttpResult.ok2xx ⟨some 100, some 1, some 5⟩)
        (HttpResult.ok2xx ⟨[(some 99, some 1)], [(some 101, some 2)]⟩)
        5 6 PostOutcome.non2xx).state.price_data =
      push_window [] ⟨5, 100, 1, 99, 1, 101, 2, 5⟩ ∧
    (update_data ⟨[], none, "u", true⟩
        (HttpResult.ok2xx ⟨some 100, some 1, some 5⟩)
        (HttpResult.ok2xx ⟨[(some 99, some 1)], [(some 101, some 2)]⟩)
        5 6 PostOutcome.non2xx).aws_success =
      (send_to_aws_api ⟨[], none, "u", true⟩ ⟨5, 100, 1, 99, 1, 101, 2, 5⟩
        PostOutcome.non2xx).result :=
  forward_failure_reported_as_data ⟨[], none, "u", true⟩
    (HttpResult.ok2xx ⟨some 100, some 1, some 5⟩)
    (HttpResult.ok2xx ⟨[(some 99, some 1)], [(some 101, some 2)]⟩)
    5 6 PostOutcome.non2xx ⟨5, 100, 1, 99, 1, 101, 2, 5⟩ rfl (by decide)

/-- Claim C8: the fetch succeeds only when both HTTP calls succeed with
parseable bodies — either call failing, or a numeric field failing to
parse, yields None with no partial observation — and an empty level-1
array on one order-book side makes that side's price and size default
to 0 instead of failing the fetch. -/
theorem fetch_both_calls_and_empty_book_defaults :
    (∀ (br : HttpResult BookBody) (n : Nat),
        get_btc_price HttpResult.non2xx br n = none ∧
        get_btc_price HttpResult.netError br n = none) ∧
    (∀ (tb : TickerBody) (n : Nat),
        get_btc_price (HttpResult.ok2xx tb) HttpResult.non2xx n = none ∧
        get_btc_price (HttpResult.ok2xx tb) HttpResult.netError n = none) ∧
    (∀ (s v : Option ℚ) (br : HttpResult BookBody) (n : Nat),
        get_btc_price (HttpResult.ok2xx ⟨none, s, v⟩) br n = none) ∧
    (∀ (p s v ap asz : ℚ) (rest : List (Option ℚ × Option ℚ)) (n : Nat),
        get_btc_price (HttpResult.ok2xx ⟨some p, some s, some v⟩)
            (HttpResult.ok2xx ⟨[], (some ap, some asz) :: rest⟩) n =
          some ⟨n, p, s, 0, 0, ap, asz, v⟩) ∧
    (∀ (p s v bp bsz : ℚ) (rest : List (Option ℚ × Option ℚ)) (n : Nat),
        get_btc_price (HttpResult.ok2xx ⟨some p, some s, some v⟩)
            (HttpResult.ok2xx ⟨(some bp, some bsz) :: rest, []⟩) n =
          some ⟨n, p, s, bp, bsz, 0, 0, v⟩) :=
  ⟨fun _ _ => ⟨rfl, rfl⟩,
   fun _ _ => ⟨rfl, rfl⟩,
   fun _ _ br _ => by cases br <;> rfl,
   fun _ _ _ _ _ _ _ => rfl,
   fun _ _ _ _ _ _ _ => rfl⟩

/-- Claim C9: get_btc_price is total — for every outcome of the two
HTTP calls and every response body, it either returns the complete
observation assembled by the try-block or returns None; every exception
the try-block raises is caught and mapped to None. -/
theorem fetch_returns_obs_or_none (tr : HttpResult TickerBody)
    (br : HttpResult BookBody) (n : Nat) :
    (∃ o, fetch_body tr br n = Except.ok o ∧
      get_btc_price tr br n = some o) ∨
    (∃ e, fetch_body tr br n = Except.error e ∧
      get_btc_price tr br n = none) := by
  cases h : fetch_body tr br n with
  | ok o => exact Or.inl ⟨o, rfl, by simp [get_btc_price, h, Except.toOption]⟩
  | error e =>
      exact Or.inr ⟨e, rfl, by simp [get_btc_price, h, Except.toOption]⟩

/-- Claim C10: the forwarder returns the same value False both when
forwarding is skipped (disabled or empty endpoint) and when the POST
fails, so the pair returned by update_data is identical in the two
scenarios and cannot distinguish a skipped forward from a failed one. -/
theorem tick_cannot_distinguish_skip_from_fail (s1 s2 : SessionState)
    (tr : HttpResult TickerBody) (br : HttpResult BookBody)
    (tf tu : Nat) (out1 out2 : PostOutcome) (o : Observation)
    (h : get_btc_price tr br tf = some o)
    (hs1 : s1.aws_api_enabled = false)
    (hout : out2 ≠ PostOutcome.ok2xx) :
    (send_to_aws_api s1 o out1).result = false ∧
    (send_to_aws_api s2 o out2).result = false ∧
    ((update_data s1 tr br tf tu out1).data_success,
      (update_data s1 tr br tf tu out1).aws_success) =
    ((update_data s2 tr br tf tu out2).data_success,
      (update_data s2 tr br tf tu out2).aws_success) := by
  have r1 : (send_to_aws_api s1 o out1).result = false := by
    simp [send_to_aws_api, hs1]
  have r2 : (send_to_aws_api s2 o out2).result = false := by
    unfold send_to_aws_api
    split
    · rfl
    · cases out2 with
      | ok2xx => exact absurd rfl hout
      | non2xx => rfl
      | requestError => rfl
  exact ⟨r1, r2, by simp [update_data, h, r1, r2]⟩

/-- Witness for C10: a disabled configuration versus an enabled one
whose POST hits a network error, on the same successful fetch. -/
theorem tick_cannot_distinguish_skip_from_fail_witness :
    (send_to_aws_api ⟨[], none, "u", false⟩ ⟨5, 100, 1, 99, 1, 101, 2, 5⟩
        PostOutcome.ok2xx).result = false ∧
    (send_to_aws_api ⟨[], none, "u", true⟩ ⟨5, 100, 1, 99, 1, 101, 2, 5⟩
        PostOutcome.requestError).result = false ∧
    ((update_data ⟨[], none, "u", false⟩
        (HttpResult.ok2xx ⟨some 100, some 1, some 5⟩)
        (HttpResult.ok2xx ⟨[(some 99, some 1)], [(some 101, some 2)]⟩)
        5 6 PostOutcome.ok2xx).data_success,
      (update_data ⟨[], none, "u", false⟩
        (HttpResult.ok2xx ⟨some 100, some 1, some 5⟩)
        (HttpResult.ok2xx ⟨[(some 99, some 1)], [(some 101, some 2)]⟩)
        5 6 PostOutcome.ok2xx).aws_success) =
    ((update_data ⟨[], none, "u", true⟩
        (HttpResult.ok2xx ⟨some 100, some 1, some 5⟩)
        (HttpResult.ok2xx ⟨[(some 99, some 1)], [(some 101, some 2)]⟩)
        5 6 PostOutcome.requestError).data_success,
      (update_data ⟨[], none, "u", true⟩
        (HttpResult.ok2xx ⟨some 100, some 1, some 5⟩)
        (HttpResult.ok2xx ⟨[(some 99, some 1)], [(some 101, some 2)]⟩)
        5 6 PostOutcome.requestError).aws_success) :=
  tick_cannot_distinguish_skip_from_fail ⟨[], none, "u", false⟩
    ⟨[], none, "u", true⟩ (HttpResult.ok2xx ⟨some 100, some 1, some 5⟩)
    (HttpResult.ok2xx ⟨[(some 99, some 1)], [(some 101, some 2)]⟩)
    5 6 PostOutcome.ok2xx PostOutcome.requestError
    ⟨5, 100, 1, 99, 1, 101, 2, 5⟩ rfl rfl (by decide)
